import Mathlib

/-!
# cloudlens: EC2 provider functions and the instance view

A shallow embedding of `internal/aws/ec2.go` (the provider functions that call
the EC2 API) and of `internal/view/ec2.go` (the instance view: its key
bindings and its enter command), followed by theorems about them.

Conventions of the embedding:

* a Go pointer `*T` is an `Option T` (`none` is the nil pointer) and a
  dereference is `deref`, which panics on `none`;
* a Go slice `[]T` is a `Slice T`, an `Option (List T)` whose `none` is the nil
  slice, so that a nil slice and an empty non-nil slice stay distinct;
* a Go `error` is an `Option Error` (`none` is the nil error);
* a function that can panic returns `Except Panic _`;
* a function that talks to the backend returns a `Run _`: the operations it
  requested, in order, together with its result;
* calls to the logger and to `fmt.Println` are left out of the provider
  functions: they write to the log file and to standard output only.
-/

namespace CloudLens

/-! ## Go run-time model -/

/-- Run-time panics that the embedded code can raise. -/
inductive Panic where
  | nilDeref
  | indexOutOfRange
  | missingLocation
  deriving DecidableEq, Repr

/-- Error values are represented by their message. -/
abbrev Error := String

/-- Go slice: `none` is the nil slice, `some xs` a non-nil slice. -/
abbrev Slice (α : Type) := Option (List α)

/-- Elements of a slice, as `range` visits them. -/
def Slice.toList {α : Type} (s : Slice α) : List α :=
  match s with
  | none => []
  | some xs => xs

/-- Go `append(s, x)`: the result is never the nil slice. -/
def Slice.append {α : Type} (s : Slice α) (x : α) : Slice α :=
  some (Slice.toList s ++ [x])

/-- Go `s[0]`: panics when the slice has no element. -/
def Slice.index0 {α : Type} (s : Slice α) : Except Panic α :=
  match Slice.toList s with
  | [] => .error .indexOutOfRange
  | x :: _ => .ok x

/-- Pointer dereference `*p`. -/
def deref {α : Type} (p : Option α) : Except Panic α :=
  match p with
  | none => .error .nilDeref
  | some a => .ok a

/-- Outcome of one iteration or of a whole `range` loop: either the enclosing
function returned (`ret`), or the loop goes on with the updated variables
(`next`). -/
inductive Flow (ρ σ : Type) where
  | ret (r : ρ)
  | next (s : σ)

/-- A `for _, x := range xs` loop whose body may return from the enclosing
function or panic. -/
def rangeLoop {α ρ σ : Type} (body : σ → α → Except Panic (Flow ρ σ)) :
    List α → σ → Except Panic (Flow ρ σ)
  | [], s => .ok (.next s)
  | x :: xs, s =>
    match body s x with
    | .error p => .error p
    | .ok (.ret r) => .ok (.ret r)
    | .ok (.next s1) => rangeLoop body xs s1

/-- What a provider function did: the backend operations it requested, in
order, and its result (a value or a panic). -/
structure Run (α : Type) where
  trace : List String
  result : Except Panic α

/-- A computation that requests nothing from the backend. -/
def Run.pure {α : Type} (a : α) : Run α := ⟨[], .ok a⟩

/-- Sequencing: a panic stops the function, the requests made so far stay. -/
def Run.bind {α β : Type} (x : Run α) (f : α → Run β) : Run β :=
  match x.result with
  | .error p => ⟨x.trace, .error p⟩
  | .ok a => ⟨x.trace ++ (f a).trace, (f a).result⟩

/-- A step that cannot reach the backend. -/
def Run.lift {α : Type} (r : Except Panic α) : Run α := ⟨[], r⟩

instance : Monad Run where
  pure := Run.pure
  bind := Run.bind

/-! ## Time (Go standard library) -/

/-- A `*time.Location` is an `Option Location`; a location is known by its name. -/
structure Location where
  name : String
  deriving DecidableEq, Repr

/-- The location `time.UTC`. -/
def UTC : Location := ⟨"UTC"⟩

/-- The location `time.Local`; its `String()` is "Local". -/
def Local : Location := ⟨"Local"⟩

/-- Method `(*Location).String`: a nil location is read as UTC. -/
def Location.String (l : Option Location) : String :=
  match l with
  | none => "UTC"
  | some loc => loc.name

/-- A `time.Time`: an instant (seconds since the epoch) shown in a location. -/
structure Time where
  instant : Int
  loc : Location
  deriving DecidableEq, Repr

/-- Method `Time.In`: the same instant in another location; panics on a nil
location. -/
def Time.In (t : Time) (loc : Option Location) : Except Panic Time :=
  match loc with
  | none => .error .missingLocation
  | some l => .ok { t with loc := l }

/-- The host as far as package `time` sees it: the name of its local time
zone (its time-zone setting) and its time-zone database. -/
structure Host where
  zone : String
  tzdata : String → Option Location

/-- Go's `time.LoadLocation`, as documented: the names "" and "UTC" give UTC,
"Local" gives Local, any other name is looked up in the time-zone database. -/
def goLoadLocation (host : Host) (name : String) : Option Location × Option Error :=
  if name = "" ∨ name = "UTC" then (some UTC, none)
  else if name = "Local" then (some Local, none)
  else match host.tzdata name with
    | some l => (some l, none)
    | none => (none, some ("unknown time zone " ++ name))

/-! ## EC2 SDK types (the fields that the provider functions read) -/

structure Placement where
  AvailabilityZone : Option String

structure InstanceState where
  Name : String

structure Monitoring where
  State : String

structure Instance where
  InstanceId : Option String
  InstanceType : String
  Placement : Option Placement
  State : Option InstanceState
  PublicDnsName : Option String
  Monitoring : Option Monitoring
  LaunchTime : Option Time

structure Reservation where
  Instances : Slice Instance

structure SecurityGroup where
  GroupId : Option String
  GroupName : Option String

structure Volume where
  VolumeId : Option String
  Size : Option Int
  VolumeType : String
  State : String
  AvailabilityZone : Option String
  SnapshotId : Option String
  CreateTime : Option Time

structure SdkSnapshot where
  SnapshotId : Option String
  OwnerId : Option String
  VolumeId : Option String
  VolumeSize : Option Int
  StartTime : Option Time
  State : String

structure Image where
  ImageId : Option String
  OwnerId : Option String
  ImageLocation : Option String
  Name : Option String
  ImageType : String

structure Vpc where
  VpcId : Option String
  OwnerId : Option String
  CidrBlock : Option String
  InstanceTenancy : String
  State : String

structure Subnet where
  SubnetId : Option String
  OwnerId : Option String
  CidrBlock : Option String
  AvailabilityZone : Option String
  State : String

structure Filter where
  Name : Option String
  Values : List String

structure DescribeInstancesInput where
  InstanceIds : List String := []

structure DescribeSecurityGroupsInput where
  GroupIds : List String := []

structure DescribeVolumesInput where
  VolumeIds : List String := []

structure DescribeSnapshotsInput where
  SnapshotIds : List String := []

structure DescribeImagesInput where
  ImageIds : List String := []

structure DescribeVpcsInput where
  VpcIds : List String := []

structure DescribeSubnetsInput where
  Filters : List Filter := []
  SubnetIds : List String := []

structure DescribeInstancesOutput where
  Reservations : Slice Reservation

structure DescribeSecurityGroupsOutput where
  SecurityGroups : Slice SecurityGroup

structure DescribeVolumesOutput where
  Volumes : Slice Volume

structure DescribeSnapshotsOutput where
  Snapshots : Slice SdkSnapshot

structure DescribeImagesOutput where
  Images : Slice Image

structure DescribeVpcsOutput where
  Vpcs : Slice Vpc

structure DescribeSubnetsOutput where
  Subnets : Slice Subnet

/-! ## Flat records of package `aws`

The record types are declared in another file of the package; their fields are
the ones that the struct literals of `ec2.go` set, all of them strings. -/

structure EC2Resp where
  InstanceId : String
  InstanceType : String
  AvailabilityZone : String
  InstanceState : String
  PublicDNS : String
  MonitoringState : String
  LaunchTime : String
  deriving DecidableEq, Repr

structure EBSResp where
  VolumeId : String
  Size : String
  VolumeType : String
  State : String
  AvailabilityZone : String
  Snapshot : String
  CreationTime : String
  deriving DecidableEq, Repr

structure Snapshot where
  SnapshotId : String
  OwnerId : String
  VolumeId : String
  VolumeSize : String
  StartTime : String
  State : String
  deriving DecidableEq, Repr

structure ImageResp where
  ImageId : String
  OwnerId : String
  ImageLocation : String
  Name : String
  ImageType : String
  deriving DecidableEq, Repr

structure VpcResp where
  VpcId : String
  OwnerId : String
  CidrBlock : String
  InstanceTenancy : String
  State : String
  deriving DecidableEq, Repr

structure SubnetResp where
  SubnetId : String
  OwnerId : String
  CidrBlock : String
  AvailabilityZone : String
  State : String
  deriving DecidableEq, Repr

/-! ## The environment of the provider functions -/

/-- Everything outside the program that the provider functions consult: the
EC2 backend reached through the SDK client (each call yields the Go pair of
an output pointer and an error), the time-zone loader, and the standard
library's time formatting. -/
structure Env where
  DescribeInstances : Option DescribeInstancesInput →
    Option DescribeInstancesOutput × Option Error
  DescribeSecurityGroups : Option DescribeSecurityGroupsInput →
    Option DescribeSecurityGroupsOutput × Option Error
  DescribeVolumes : Option DescribeVolumesInput →
    Option DescribeVolumesOutput × Option Error
  DescribeSnapshots : Option DescribeSnapshotsInput →
    Option DescribeSnapshotsOutput × Option Error
  DescribeImages : Option DescribeImagesInput →
    Option DescribeImagesOutput × Option Error
  DescribeVpcs : Option DescribeVpcsInput →
    Option DescribeVpcsOutput × Option Error
  DescribeSubnets : Option DescribeSubnetsInput →
    Option DescribeSubnetsOutput × Option Error
  LoadLocation : String → Option Location × Option Error
  Format : String → Time → String
  TimeString : Time → String

/-- One request to the backend: it is recorded under the name of the SDK
client method, and its reply is handed to the caller. -/
def Run.call {α : Type} (operation : String) (reply : α) : Run α :=
  ⟨[operation], .ok reply⟩

namespace Client

def DescribeInstances (env : Env) (params : Option DescribeInstancesInput) :
    Run (Option DescribeInstancesOutput × Option Error) :=
  Run.call "DescribeInstances" (env.DescribeInstances params)

def DescribeSecurityGroups (env : Env) (params : Option DescribeSecurityGroupsInput) :
    Run (Option DescribeSecurityGroupsOutput × Option Error) :=
  Run.call "DescribeSecurityGroups" (env.DescribeSecurityGroups params)

def DescribeVolumes (env : Env) (params : Option DescribeVolumesInput) :
    Run (Option DescribeVolumesOutput × Option Error) :=
  Run.call "DescribeVolumes" (env.DescribeVolumes params)

def DescribeSnapshots (env : Env) (params : Option DescribeSnapshotsInput) :
    Run (Option DescribeSnapshotsOutput × Option Error) :=
  Run.call "DescribeSnapshots" (env.DescribeSnapshots params)

def DescribeImages (env : Env) (params : Option DescribeImagesInput) :
    Run (Option DescribeImagesOutput × Option Error) :=
  Run.call "DescribeImages" (env.DescribeImages params)

def DescribeVpcs (env : Env) (params : Option DescribeVpcsInput) :
    Run (Option DescribeVpcsOutput × Option Error) :=
  Run.call "DescribeVpcs" (env.DescribeVpcs params)

def DescribeSubnets (env : Env) (params : Option DescribeSubnetsInput) :
    Run (Option DescribeSubnetsOutput × Option Error) :=
  Run.call "DescribeSubnets" (env.DescribeSubnets params)

end Client

/-! ## Provider functions (`internal/aws/ec2.go`) -/

/-- The function `GetLocalTimeZone`: loads the location named by the empty
string and returns its name. -/
def GetLocalTimeZone (env : Env) : String × Option Error :=
  match env.LoadLocation "" with
  | (_, some err) => ("", some err)
  | (localZone, none) => (Location.String localZone, none)

/-- Body of the inner loop of `GetInstances`, for one instance. -/
def GetInstances.body (env : Env) (ec2Info : Slice EC2Resp) (inst : Instance) :
    Except Panic (Flow (Slice EC2Resp × Option Error) (Slice EC2Resp)) :=
  let launchTime := inst.LaunchTime
  match GetLocalTimeZone env with
  | (_, some err) => .ok (.ret (none, some err))
  | (localZone, none) => do
    let loc := (env.LoadLocation localZone).1
    let IST ← (← deref launchTime).In loc
    let instanceId ← deref inst.InstanceId
    let availabilityZone ← deref (← deref inst.Placement).AvailabilityZone
    let instanceState := (← deref inst.State).Name
    let publicDNS ← deref inst.PublicDnsName
    let monitoringState := (← deref inst.Monitoring).State
    let ec2Resp : EC2Resp := {
      InstanceId := instanceId
      InstanceType := inst.InstanceType
      AvailabilityZone := availabilityZone
      InstanceState := instanceState
      PublicDNS := publicDNS
      MonitoringState := monitoringState
      LaunchTime := env.Format "Mon Jan _2 15:04:05 2006" IST }
    .ok (.next (Slice.append ec2Info ec2Resp))

/-- The function `GetInstances`. -/
def GetInstances (env : Env) : Run (Slice EC2Resp × Option Error) := do
  let ec2Info : Slice EC2Resp := none
  let (resultec2, err) ← Client.DescribeInstances env none
  if err ≠ none then
    return (none, err)
  let out ← Run.lift (deref resultec2)
  let flow ← Run.lift (rangeLoop
    (fun acc (reservation : Reservation) =>
      rangeLoop (GetInstances.body env) (Slice.toList reservation.Instances) acc)
    (Slice.toList out.Reservations) ec2Info)
  match flow with
  | .ret r => return r
  | .next ec2Info => return (ec2Info, none)

/-- The function `GetSingleInstance`. -/
def GetSingleInstance (env : Env) (insId : String) : Run (Option DescribeInstancesOutput) := do
  let (result, err) ← Client.DescribeInstances env (some { InstanceIds := [insId] })
  if err ≠ none then
    return none
  return result

/-- Body of the logging loop of `GetSecGrps`: the two dereferences that build
the log line. -/
def GetSecGrps.body (_ : Unit) (sg : SecurityGroup) :
    Except Panic (Flow (Slice SecurityGroup × Option Error) Unit) := do
  let _ ← deref sg.GroupId
  let _ ← deref sg.GroupName
  .ok (.next ())

/-- The function `GetSecGrps`. -/
def GetSecGrps (env : Env) : Run (Slice SecurityGroup × Option Error) := do
  let (result, err) ← Client.DescribeSecurityGroups env (some {})
  if err ≠ none then
    return (none, err)
  let out ← Run.lift (deref result)
  let flow ← Run.lift (rangeLoop GetSecGrps.body (Slice.toList out.SecurityGroups) ())
  match flow with
  | .ret r => return r
  | .next _ => return (out.SecurityGroups, none)

/-- The function `GetSingleSecGrp`. -/
def GetSingleSecGrp (env : Env) (sgId : String) :
    Run (Option DescribeSecurityGroupsOutput) := do
  let (result, err) ← Client.DescribeSecurityGroups env (some { GroupIds := [sgId] })
  if err ≠ none then
    return none
  return result

/-- Body of the loop of `GetVolumes`, for one volume. -/
def GetVolumes.body (env : Env) (volumes : Slice EBSResp) (v : Volume) :
    Except Panic (Flow (Slice EBSResp × Option Error) (Slice EBSResp)) :=
  let launchTime := v.CreateTime
  match GetLocalTimeZone env with
  | (_, some err) => .ok (.ret (none, some err))
  | (localZone, none) => do
    let loc := (env.LoadLocation localZone).1
    let IST ← (← deref launchTime).In loc
    let volumeId ← deref v.VolumeId
    let size ← deref v.Size
    let availabilityZone ← deref v.AvailabilityZone
    let snapshot ← deref v.SnapshotId
    let volume : EBSResp := {
      VolumeId := volumeId
      Size := toString size ++ " GB"
      VolumeType := v.VolumeType
      State := v.State
      AvailabilityZone := availabilityZone
      Snapshot := snapshot
      CreationTime := env.TimeString IST }
    .ok (.next (Slice.append volumes volume))

/-- The function `GetVolumes`. -/
def GetVolumes (env : Env) : Run (Slice EBSResp × Option Error) := do
  let volumes : Slice EBSResp := none
  let (result, err) ← Client.DescribeVolumes env (some {})
  if err ≠ none then
    return (none, err)
  let out ← Run.lift (deref result)
  let flow ← Run.lift (rangeLoop (GetVolumes.body env) (Slice.toList out.Volumes) volumes)
  match flow with
  | .ret r => return r
  | .next volumes => return (volumes, none)

/-- The function `GetSingleVolume`: the error is logged and execution goes on
to `result.Volumes[0]`. -/
def GetSingleVolume (env : Env) (vId : String) : Run Volume := do
  let (result, _) ← Client.DescribeVolumes env (some { VolumeIds := [vId] })
  let out ← Run.lift (deref result)
  Run.lift (Slice.index0 out.Volumes)

/-- Body of the loop of `GetSnapshots`, for one snapshot. -/
def GetSnapshots.body (env : Env) (snapshots : Slice Snapshot) (s : SdkSnapshot) :
    Except Panic (Flow (Slice Snapshot) (Slice Snapshot)) :=
  let launchTime := s.StartTime
  match GetLocalTimeZone env with
  | (_, some _) => .ok (.ret none)
  | (localZone, none) => do
    let loc := (env.LoadLocation localZone).1
    let IST ← (← deref launchTime).In loc
    let snapshotId ← deref s.SnapshotId
    let ownerId ← deref s.OwnerId
    let volumeId ← deref s.VolumeId
    let volumeSize ← deref s.VolumeSize
    let snapshot : Snapshot := {
      SnapshotId := snapshotId
      OwnerId := ownerId
      VolumeId := volumeId
      VolumeSize := toString volumeSize
      StartTime := env.TimeString IST
      State := s.State }
    .ok (.next (Slice.append snapshots snapshot))

/-- The function `GetSnapshots`. -/
def GetSnapshots (env : Env) : Run (Slice Snapshot) := do
  let (result, err) ← Client.DescribeSnapshots env (some {})
  if err ≠ none then
    return none
  let snapshots : Slice Snapshot := none
  let out ← Run.lift (deref result)
  let flow ← Run.lift (rangeLoop (GetSnapshots.body env) (Slice.toList out.Snapshots) snapshots)
  match flow with
  | .ret r => return r
  | .next snapshots => return snapshots

/-- The function `GetSingleSnapshot`. -/
def GetSingleSnapshot (env : Env) (sId : String) : Run SdkSnapshot := do
  let (result, _) ← Client.DescribeSnapshots env (some { SnapshotIds := [sId] })
  let out ← Run.lift (deref result)
  Run.lift (Slice.index0 out.Snapshots)

/-- Body of the loop of `GetAMIs`, for one image. -/
def GetAMIs.body (images : Slice ImageResp) (i : Image) :
    Except Panic (Flow (Slice ImageResp) (Slice ImageResp)) := do
  let imageId ← deref i.ImageId
  let ownerId ← deref i.OwnerId
  let imageLocation ← deref i.ImageLocation
  let name ← deref i.Name
  let image : ImageResp := {
    ImageId := imageId
    OwnerId := ownerId
    ImageLocation := imageLocation
    Name := name
    ImageType := i.ImageType }
  .ok (.next (Slice.append images image))

/-- The function `GetAMIs`. -/
def GetAMIs (env : Env) : Run (Slice ImageResp) := do
  let (result, err) ← Client.DescribeImages env (some {})
  if err ≠ none then
    return none
  let images : Slice ImageResp := none
  let out ← Run.lift (deref result)
  let flow ← Run.lift (rangeLoop GetAMIs.body (Slice.toList out.Images) images)
  match flow with
  | .ret r => return r
  | .next images => return images

/-- The function `GetSingleAMI`. -/
def GetSingleAMI (env : Env) (amiId : String) : Run Image := do
  let (result, _) ← Client.DescribeImages env (some { ImageIds := [amiId] })
  let out ← Run.lift (deref result)
  Run.lift (Slice.index0 out.Images)

/-- Body of the loop of `GetVPCs`, for one VPC. -/
def GetVPCs.body (vpcs : Slice VpcResp) (v : Vpc) :
    Except Panic (Flow (Slice VpcResp) (Slice VpcResp)) := do
  let vpcId ← deref v.VpcId
  let ownerId ← deref v.OwnerId
  let cidrBlock ← deref v.CidrBlock
  let vpc : VpcResp := {
    VpcId := vpcId
    OwnerId := ownerId
    CidrBlock := cidrBlock
    InstanceTenancy := v.InstanceTenancy
    State := v.State }
  .ok (.next (Slice.append vpcs vpc))

/-- The function `GetVPCs`. -/
def GetVPCs (env : Env) : Run (Slice VpcResp) := do
  let (result, err) ← Client.DescribeVpcs env (some {})
  if err ≠ none then
    return none
  let vpcs : Slice VpcResp := none
  let out ← Run.lift (deref result)
  let flow ← Run.lift (rangeLoop GetVPCs.body (Slice.toList out.Vpcs) vpcs)
  match flow with
  | .ret r => return r
  | .next vpcs => return vpcs

/-- The function `GetSingleVPC`: both branches on `err` return
`result.Vpcs[0]`. -/
def GetSingleVPC (env : Env) (vpcId : String) : Run Vpc := do
  let (result, err) ← Client.DescribeVpcs env (some { VpcIds := [vpcId] })
  if err ≠ none then
    let out ← Run.lift (deref result)
    Run.lift (Slice.index0 out.Vpcs)
  else
    let out ← Run.lift (deref result)
    Run.lift (Slice.index0 out.Vpcs)

/-- Body of the loop of `GetSubnets`, for one subnet. -/
def GetSubnets.body (subnets : Slice SubnetResp) (s : Subnet) :
    Except Panic (Flow (Slice SubnetResp) (Slice SubnetResp)) := do
  let subnetId ← deref s.SubnetId
  let ownerId ← deref s.OwnerId
  let cidrBlock ← deref s.CidrBlock
  let availabilityZone ← deref s.AvailabilityZone
  let subnet : SubnetResp := {
    SubnetId := subnetId
    OwnerId := ownerId
    CidrBlock := cidrBlock
    AvailabilityZone := availabilityZone
    State := s.State }
  .ok (.next (Slice.append subnets subnet))

/-- The function `GetSubnets`. -/
def GetSubnets (env : Env) (vpcId : String) : Run (Slice SubnetResp) := do
  let (result, err) ← Client.DescribeSubnets env
    (some { Filters := [{ Name := some "vpc-id", Values := [vpcId] }] })
  if err ≠ none then
    return none
  let subnets : Slice SubnetResp := none
  let out ← Run.lift (deref result)
  let flow ← Run.lift (rangeLoop GetSubnets.body (Slice.toList out.Subnets) subnets)
  match flow with
  | .ret r => return r
  | .next subnets => return subnets

/-- The function `GetSingleSubnet`: both branches on `err` return
`result.Subnets[0]`. -/
def GetSingleSubnet (env : Env) (sId : String) : Run Subnet := do
  let (result, err) ← Client.DescribeSubnets env (some { SubnetIds := [sId] })
  if err ≠ none then
    let out ← Run.lift (deref result)
    Run.lift (Slice.index0 out.Subnets)
  else
    let out ← Run.lift (deref result)
    Run.lift (Slice.index0 out.Subnets)

/-! ## Instance view (`internal/view/ec2.go`) -/

/-- Modelled from the spec: key symbols. The key constants of package `ui`
(`ui.KeyShiftI` and its siblings) are declared in a file that is not among the
sources; the spec describes them as shift-modified letter keys, and Escape and
Enter are the two named keys of the terminal library. The eight constants are
keys of one Go map literal, which the compiler accepts only when their values
are pairwise distinct. -/
inductive Key where
  | shift (letter : Char)
  | Escape
  | Enter
  deriving DecidableEq, Repr

def KeyShiftI : Key := .shift 'I'

def KeyShiftS : Key := .shift 'S'

def KeyShiftT : Key := .shift 'T'

def KeyShiftL : Key := .shift 'L'

def KeyShiftM : Key := .shift 'M'

def KeyShiftP : Key := .shift 'P'

def KeyEscape : Key := .Escape

def KeyEnter : Key := .Enter

/-- A key event as delivered by the terminal library. -/
structure EventKey where
  key : Key
  deriving DecidableEq, Repr

/-- Handler references that `bindKeys` installs: the table's sort command for
a column with its initial direction, the application's previous-view command,
and the view's own enter command. -/
inductive Handler where
  | SortColCmd (colName : String) (asc : Bool)
  | PrevCmd
  | enterCmd
  deriving DecidableEq, Repr

/-- Modelled from the spec: key action. The type is declared in package `ui`,
in a file that is not among the sources; the spec gives it a human-readable
description, a handler reference and a visibility/enabled flag. -/
structure KeyAction where
  Description : String
  Action : Handler
  Visible : Bool
  deriving DecidableEq, Repr

/-- Modelled from the spec: the constructor
`ui.NewKeyAction(description, action, visible)`, declared in package `ui`; it
fills the three fields of the key action from its arguments. -/
def NewKeyAction (d : String) (a : Handler) (display : Bool) : KeyAction :=
  { Description := d, Action := a, Visible := display }

/-- Registry: a map from key to key action, kept as an association list. -/
abbrev KeyActions := List (Key × KeyAction)

/-- Lookup of a key in a registry. -/
def KeyActions.get (aa : KeyActions) (k : Key) : Option KeyAction :=
  List.lookup k aa

/-- Modelled from the spec: registry merge. `ui.KeyActions.Add` is declared in
package `ui`; every key present in the added bindings overrides
the same key of the registry, the other keys of the registry stay. -/
def KeyActions.Add (aa : KeyActions) (more : KeyActions) : KeyActions :=
  more ++ aa.filter (fun p => (List.lookup p.1 more).isNone)

namespace EC2

/-- The map literal that `bindKeys` passes to `aa.Add`, in source order. -/
def bindings : KeyActions :=
  [ (KeyShiftI, NewKeyAction "Sort Instance-Id" (.SortColCmd "Instance-Id" true) true),
    (KeyShiftS, NewKeyAction "Sort Instance-State" (.SortColCmd "Instance-State" true) true),
    (KeyShiftT, NewKeyAction "Sort Instance-Type" (.SortColCmd "Instance-Type" true) true),
    (KeyShiftL, NewKeyAction "Sort Launch-Time" (.SortColCmd "Launch-Time" true) true),
    (KeyShiftM, NewKeyAction "Sort Monitoring-State" (.SortColCmd "Monitoring-State" true) true),
    (KeyShiftP, NewKeyAction "Sort Public-DNS" (.SortColCmd "Public-DNS" true) true),
    (KeyEscape, NewKeyAction "Back" .PrevCmd true),
    (KeyEnter, NewKeyAction "View" .enterCmd true) ]

/-- The method `bindKeys`: adds the view's bindings to the registry `aa`. -/
def bindKeys (aa : KeyActions) : KeyActions :=
  KeyActions.Add aa bindings

end EC2

/-- One table row: its identifier and its cells. -/
structure Row where
  id : String
  cells : List String
  deriving DecidableEq, Repr

/-- State of a view's table: rows, sort column and direction, selection. -/
structure Table where
  rows : List Row
  sortCol : String
  sortAsc : Bool
  selected : Option String
  deriving DecidableEq, Repr

/-- Severity of a flash message. -/
inductive FlashLevel where
  | info
  | warn
  | err
  deriving DecidableEq, Repr

/-- Modelled from the spec: flash message. The flash model is declared in
package `ui`; a message is a short text with a severity tag. -/
structure FlashMsg where
  level : FlashLevel
  text : String
  deriving DecidableEq, Repr

/-- Application state that a key command of the instance view can reach: the
navigation stack (resource tags of its views, top first), the view's table
and the flash messages emitted so far (the last one is the current one). -/
structure AppState where
  stack : List String
  table : Table
  flash : List FlashMsg
  deriving DecidableEq, Repr

/-- Modelled from the spec: flash notification of severity info. `Flash().Info`
is declared in the flash model of package `ui`; emitting a message sets it as the
current one and touches nothing else. -/
def Flash.Info (app : AppState) (msg : String) : AppState :=
  { app with flash := app.flash ++ [⟨.info, msg⟩] }

namespace EC2

/-- The method `describeInstace`: writes one line to the log and does nothing
else; the result is the application and model state after the call, and the
log lines written. -/
def describeInstace (app : AppState) (model : Table) (resource : String) :
    (AppState × Table) × List String :=
  ((app, model), ["TODO: describe: " ++ resource])

/-- The method `enterCmd`. The table's selected-item lookup
`GetSelectedItem` is declared in package `ui` and is a parameter.
The result is the state after the call and the returned event pointer. -/
def enterCmd (GetSelectedItem : Table → String) (app : AppState) (_evt : Option EventKey) :
    AppState × Option EventKey :=
  let instanceId := GetSelectedItem app.table
  let app1 := Flash.Info app ("Instance-Id: " ++ instanceId)
  (app1, none)

end EC2

/-- A resource viewer as far as `NewEC2` configures it: its resource tag, the
bind-keys functions added to it and the enter function set on its table. -/
structure ResourceViewer where
  resource : String
  bindKeysFns : List (KeyActions → KeyActions)
  enterFn : Option (AppState → Table → String → (AppState × Table) × List String)

/-- Modelled from the spec: browser constructor. `NewBrowser` is declared in
another file of package `view`; a fresh view carries its resource tag and neither
view-specific bindings nor an enter function. -/
def NewBrowser (resource : String) : ResourceViewer :=
  { resource := resource, bindKeysFns := [], enterFn := none }

/-- The function `NewEC2`. -/
def NewEC2 (resource : String) : ResourceViewer :=
  let e := NewBrowser resource
  let e := { e with bindKeysFns := e.bindKeysFns ++ [EC2.bindKeys] }
  let e := { e with enterFn := some EC2.describeInstace }
  e

/-! ## Auxiliary definitions used to state the properties -/

/-- Initial letters of the hyphen-separated words of a list of characters;
the flag tells whether the next character starts a word. -/
def wordInitialsAux : Bool → List Char → List Char
  | _, [] => []
  | atStart, c :: cs =>
    if c = '-' then wordInitialsAux true cs
    else if atStart then c :: wordInitialsAux false cs
    else wordInitialsAux false cs

/-- Initial letters of the hyphen-separated words of a column name. -/
def wordInitials (name : String) : List Char :=
  wordInitialsAux true name.toList

/-- The sort bindings of a registry: key, column name, initial direction. -/
def sortBindings (aa : KeyActions) : List (Key × String × Bool) :=
  aa.filterMap (fun p =>
    match p.2.Action with
    | .SortColCmd col asc => some (p.1, col, asc)
    | _ => none)

/-- The seven read operations of the EC2 API that the provider may request. -/
def describeOperations : List String :=
  ["DescribeInstances", "DescribeSecurityGroups", "DescribeVolumes", "DescribeSnapshots",
   "DescribeImages", "DescribeVpcs", "DescribeSubnets"]

/-- A trace is read-only when it holds at most one request and every request
in it is one of the Describe operations. -/
def readOnly (trace : List String) : Prop :=
  trace.length ≤ 1 ∧ ∀ op ∈ trace, op ∈ describeOperations

/-- A host without a time-zone database; `goLoadLocation` still answers for
the names "", "UTC" and "Local". -/
def bareHost : Host := ⟨"UTC", fun _ => none⟩

/-- A host whose local time zone is Asia/Kolkata. -/
def kolkataHost : Host :=
  ⟨"Asia/Kolkata", fun name => if name = "Asia/Kolkata" then some ⟨"Asia/Kolkata"⟩ else none⟩

/-- An environment whose backend fails every call with the error `e`; as the
SDK does on an error, it hands back no output. -/
def failingEnv (e : Error) : Env where
  DescribeInstances := fun _ => (none, some e)
  DescribeSecurityGroups := fun _ => (none, some e)
  DescribeVolumes := fun _ => (none, some e)
  DescribeSnapshots := fun _ => (none, some e)
  DescribeImages := fun _ => (none, some e)
  DescribeVpcs := fun _ => (none, some e)
  DescribeSubnets := fun _ => (none, some e)
  LoadLocation := goLoadLocation bareHost
  Format := fun _ t => toString t.instant
  TimeString := fun t => toString t.instant

/-- An environment whose backend answers every call successfully with zero
records; the result list of each output is the slice `empty` (the nil slice
or an empty non-nil slice). -/
def emptyEnv (empty : Bool) : Env where
  DescribeInstances := fun _ => (some ⟨if empty then some [] else none⟩, none)
  DescribeSecurityGroups := fun _ => (some ⟨if empty then some [] else none⟩, none)
  DescribeVolumes := fun _ => (some ⟨if empty then some [] else none⟩, none)
  DescribeSnapshots := fun _ => (some ⟨if empty then some [] else none⟩, none)
  DescribeImages := fun _ => (some ⟨if empty then some [] else none⟩, none)
  DescribeVpcs := fun _ => (some ⟨if empty then some [] else none⟩, none)
  DescribeSubnets := fun _ => (some ⟨if empty then some [] else none⟩, none)
  LoadLocation := goLoadLocation bareHost
  Format := fun _ t => toString t.instant
  TimeString := fun t => toString t.instant

/-- An instance that carries an instance id, a placement with an availability
zone, a state, a public DNS name and a monitoring entry, and no launch time. -/
def instanceWithoutLaunchTime : Instance where
  InstanceId := some "i-1"
  InstanceType := "t2.micro"
  Placement := some ⟨some "us-east-1a"⟩
  State := some ⟨"running"⟩
  PublicDnsName := some "ec2-1.example.com"
  Monitoring := some ⟨"disabled"⟩
  LaunchTime := none

/-- An environment whose backend answers `DescribeInstances` successfully with
one reservation that holds `instanceWithoutLaunchTime`. -/
def noLaunchTimeEnv : Env :=
  { emptyEnv true with
    DescribeInstances := fun _ => (some ⟨some [⟨some [instanceWithoutLaunchTime]⟩]⟩, none) }

/-- An instance that carries every field, a launch time included. -/
def instanceWithLaunchTime : Instance :=
  { instanceWithoutLaunchTime with LaunchTime := some ⟨1700000000, UTC⟩ }

/-- A response with one reservation that holds `instanceWithLaunchTime`. -/
def oneInstanceOutput : DescribeInstancesOutput :=
  ⟨some [⟨some [instanceWithLaunchTime]⟩]⟩

/-- An environment whose backend answers `DescribeInstances` successfully with
`oneInstanceOutput`. -/
def oneInstanceEnv : Env :=
  { emptyEnv true with DescribeInstances := fun _ => (some oneInstanceOutput, none) }

/-- An environment whose backend answers `DescribeInstances` successfully with
`oneInstanceOutput` and whose time-zone loader fails on every name. -/
def noZoneEnv : Env :=
  { oneInstanceEnv with LoadLocation := fun _ => (none, some "unknown time zone") }

/-- A record accumulated by an earlier iteration of the loop of `GetInstances`. -/
def earlierRecord : EC2Resp where
  InstanceId := "i-0"
  InstanceType := "t2.micro"
  AvailabilityZone := "us-east-1a"
  InstanceState := "running"
  PublicDNS := "ec2-0.example.com"
  MonitoringState := "disabled"
  LaunchTime := "Tue Nov 14 22:13:20 2023"

/-- The fields that `GetInstances` dereferences are all present. -/
def Instance.complete (i : Instance) : Prop :=
  i.InstanceId.isSome ∧ (i.Placement.bind (fun p => p.AvailabilityZone)).isSome ∧
  i.State.isSome ∧ i.PublicDnsName.isSome ∧ i.Monitoring.isSome ∧ i.LaunchTime.isSome

/-- The record agrees with the instance on the six copied fields. -/
def EC2Resp.flattens (r : EC2Resp) (i : Instance) : Prop :=
  some r.InstanceId = i.InstanceId ∧
  r.InstanceType = i.InstanceType ∧
  some r.AvailabilityZone = i.Placement.bind (fun p => p.AvailabilityZone) ∧
  some r.InstanceState = i.State.map (fun s => s.Name) ∧
  some r.PublicDNS = i.PublicDnsName ∧
  some r.MonitoringState = i.Monitoring.map (fun m => m.State)

/-- All instances of a response, in reservation order and then in instance
order within a reservation. -/
def DescribeInstancesOutput.instances (out : DescribeInstancesOutput) : List Instance :=
  (Slice.toList out.Reservations).flatMap (fun r => Slice.toList r.Instances)

/-! ## Theorems: instance view -/

/-- C1: the binding set of `bindKeys` has exactly eight entries on eight
pairwise-distinct keys: the six sort commands for Instance-Id, Instance-State,
Instance-Type, Launch-Time, Monitoring-State and Public-DNS on Shift-I, S, T,
L, M and P, the previous-view command on Escape and the enter command on
Enter; all eight are visible, all six sort commands start ascending, and
`bindKeys` makes every one of them the binding of its key in whatever registry
it is given. -/
theorem bindKeys_registers_eight_bindings :
    EC2.bindings.length = 8 ∧
    (EC2.bindings.map Prod.fst).Nodup ∧
    KeyActions.get EC2.bindings KeyShiftI
      = some ⟨"Sort Instance-Id", .SortColCmd "Instance-Id" true, true⟩ ∧
    KeyActions.get EC2.bindings KeyShiftS
      = some ⟨"Sort Instance-State", .SortColCmd "Instance-State" true, true⟩ ∧
    KeyActions.get EC2.bindings KeyShiftT
      = some ⟨"Sort Instance-Type", .SortColCmd "Instance-Type" true, true⟩ ∧
    KeyActions.get EC2.bindings KeyShiftL
      = some ⟨"Sort Launch-Time", .SortColCmd "Launch-Time" true, true⟩ ∧
    KeyActions.get EC2.bindings KeyShiftM
      = some ⟨"Sort Monitoring-State", .SortColCmd "Monitoring-State" true, true⟩ ∧
    KeyActions.get EC2.bindings KeyShiftP
      = some ⟨"Sort Public-DNS", .SortColCmd "Public-DNS" true, true⟩ ∧
    KeyActions.get EC2.bindings KeyEscape = some ⟨"Back", .PrevCmd, true⟩ ∧
    KeyActions.get EC2.bindings KeyEnter = some ⟨"View", .enterCmd, true⟩ ∧
    (sortBindings EC2.bindings).length = 6 ∧
    EC2.bindings.all (fun p => p.2.Visible) = true ∧
    (sortBindings EC2.bindings).all (fun b => b.2.2) = true ∧
    (∀ (aa : KeyActions) (k : Key) (a : KeyAction),
      KeyActions.get EC2.bindings k = some a →
      KeyActions.get (EC2.bindKeys aa) k = some a) := by
  refine ⟨by decide, by decide, by decide, by decide, by decide, by decide, by decide,
    by decide, by decide, by decide, by decide, by decide, by decide, ?_⟩
  intro aa k a h
  unfold KeyActions.get at h
  simp [KeyActions.get, EC2.bindKeys, KeyActions.Add, List.lookup_append, h]

/-- C2: in every application state and for every behaviour of the table's
selected-item lookup, `enterCmd` returns the nil event and emits exactly one
flash message, of severity info, whose text is "Instance-Id: " followed by the
identifier that the lookup returns. -/
theorem enterCmd_flashes_selected_id (GetSelectedItem : Table → String) (app : AppState)
    (evt : Option EventKey) :
    (EC2.enterCmd GetSelectedItem app evt).2 = none ∧
    (EC2.enterCmd GetSelectedItem app evt).1.flash
      = app.flash ++ [⟨.info, "Instance-Id: " ++ GetSelectedItem app.table⟩] := by
  constructor <;> rfl

/-- C5 (as stated, refuted): the sort command for the column Instance-State is
bound to Shift-S, which is not the shift-modified initial letter of the column
name, and likewise Instance-Type is bound to Shift-T. -/
theorem sort_key_not_column_initial :
    (KeyShiftS, "Instance-State", true) ∈ sortBindings EC2.bindings ∧
    KeyShiftS ≠ Key.shift ("Instance-State".front) ∧
    (KeyShiftT, "Instance-Type", true) ∈ sortBindings EC2.bindings ∧
    KeyShiftT ≠ Key.shift ("Instance-Type".front) := by
  decide

/-- C5 (amended): every sort command of `bindKeys` is bound to the
shift-modified initial letter of one of the hyphen-separated words of its
column name: the first word for Instance-Id, Launch-Time, Monitoring-State and
Public-DNS, the second word for Instance-State and Instance-Type. -/
theorem sort_key_is_word_initial (key : Key) (col : String) (asc : Bool)
    (h : (key, col, asc) ∈ sortBindings EC2.bindings) :
    (∃ c ∈ wordInitials col, key = Key.shift c) ∧
    (col ∈ ["Instance-Id", "Launch-Time", "Monitoring-State", "Public-DNS"] →
      some key = (wordInitials col).head?.map Key.shift) ∧
    (col ∈ ["Instance-State", "Instance-Type"] →
      some key = ((wordInitials col).get? 1).map Key.shift) := by
  have hall : (sortBindings EC2.bindings).all (fun b =>
      decide ((∃ c ∈ wordInitials b.2.1, b.1 = Key.shift c) ∧
        (b.2.1 ∈ ["Instance-Id", "Launch-Time", "Monitoring-State", "Public-DNS"] →
          some b.1 = (wordInitials b.2.1).head?.map Key.shift) ∧
        (b.2.1 ∈ ["Instance-State", "Instance-Type"] →
          some b.1 = ((wordInitials b.2.1).get? 1).map Key.shift))) = true := by
    decide
  exact of_decide_eq_true ((List.all_eq_true.mp hall) _ h)

/-- Witness for `sort_key_is_word_initial`: the Instance-State binding. -/
theorem sort_key_is_word_initial_witness :
    (∃ c ∈ wordInitials "Instance-State", KeyShiftS = Key.shift c) ∧
    ("Instance-State" ∈ ["Instance-Id", "Launch-Time", "Monitoring-State", "Public-DNS"] →
      some KeyShiftS = (wordInitials "Instance-State").head?.map Key.shift) ∧
    ("Instance-State" ∈ ["Instance-State", "Instance-Type"] →
      some KeyShiftS = ((wordInitials "Instance-State").get? 1).map Key.shift) :=
  sort_key_is_word_initial KeyShiftS "Instance-State" true (by decide)

/-- C9: `enterCmd` leaves the navigation stack and the table (rows, sort
column, sort direction, selection) as they were, so that only the flash
messages differ; the enter function that `NewEC2` sets on the table is
`describeInstace`, which returns the application and model state unchanged. -/
theorem enterCmd_changes_only_flash (GetSelectedItem : Table → String) (app : AppState)
    (evt : Option EventKey) (model : Table) (resource : String) :
    (EC2.enterCmd GetSelectedItem app evt).1.stack = app.stack ∧
    (EC2.enterCmd GetSelectedItem app evt).1.table.rows = app.table.rows ∧
    (EC2.enterCmd GetSelectedItem app evt).1.table.sortCol = app.table.sortCol ∧
    (EC2.enterCmd GetSelectedItem app evt).1.table.sortAsc = app.table.sortAsc ∧
    (EC2.enterCmd GetSelectedItem app evt).1.table.selected = app.table.selected ∧
    (EC2.enterCmd GetSelectedItem app evt).1
      = { app with flash := (EC2.enterCmd GetSelectedItem app evt).1.flash } ∧
    (NewEC2 resource).enterFn = some EC2.describeInstace ∧
    (EC2.describeInstace app model resource).1 = (app, model) := by
  refine ⟨rfl, rfl, rfl, rfl, rfl, rfl, rfl, rfl⟩

/-! ## Lemmas: loops and results of the list functions -/

/-- What holds of every value that a loop body returns from the enclosing
function holds of the value that the loop returns. -/
theorem rangeLoop_ret_inv {α ρ σ : Type} (P : ρ → Prop)
    (body : σ → α → Except Panic (Flow ρ σ))
    (hbody : ∀ s x r, body s x = .ok (.ret r) → P r) :
    ∀ (xs : List α) (s : σ) (r : ρ), rangeLoop body xs s = .ok (.ret r) → P r := by
  intro xs
  induction xs with
  | nil => intro s r h; simp [rangeLoop] at h
  | cons x xs ih =>
    intro s r h
    unfold rangeLoop at h
    split at h
    · cases h
    · next r1 hb =>
      cases h
      exact hbody s x r hb
    · next s1 hb => exact ih s1 r h

theorem GetInstances_body_ret (env : Env) (acc : Slice EC2Resp) (i : Instance)
    (r : Slice EC2Resp × Option Error) (h : GetInstances.body env acc i = .ok (.ret r)) :
    r.1 = none := by
  unfold GetInstances.body at h
  split at h
  · cases h; rfl
  · simp only [bind, Except.bind] at h
    repeat (split at h <;> try cases h)

theorem GetVolumes_body_ret (env : Env) (acc : Slice EBSResp) (v : Volume)
    (r : Slice EBSResp × Option Error) (h : GetVolumes.body env acc v = .ok (.ret r)) :
    r.1 = none := by
  unfold GetVolumes.body at h
  split at h
  · cases h; rfl
  · simp only [bind, Except.bind] at h
    repeat (split at h <;> try cases h)

theorem GetSecGrps_body_ret (u : Unit) (sg : SecurityGroup)
    (r : Slice SecurityGroup × Option Error) (h : GetSecGrps.body u sg = .ok (.ret r)) :
    r.1 = none := by
  unfold GetSecGrps.body at h
  simp only [bind, Except.bind] at h
  repeat (split at h <;> try cases h)

theorem GetSecGrps_body_no_ret (u : Unit) (sg : SecurityGroup)
    (r : Slice SecurityGroup × Option Error) (h : GetSecGrps.body u sg = .ok (.ret r)) :
    False := by
  unfold GetSecGrps.body at h
  simp only [bind, Except.bind] at h
  repeat (split at h <;> try cases h)

theorem GetInstances_body_tz_error (env : Env) (acc : Slice EC2Resp) (i : Instance)
    (z : String) (err : Error) (h : GetLocalTimeZone env = (z, some err)) :
    GetInstances.body env acc i = .ok (.ret (none, some err)) := by
  simp only [GetInstances.body, h]

theorem GetVolumes_body_tz_error (env : Env) (acc : Slice EBSResp) (v : Volume)
    (z : String) (err : Error) (h : GetLocalTimeZone env = (z, some err)) :
    GetVolumes.body env acc v = .ok (.ret (none, some err)) := by
  simp only [GetVolumes.body, h]

theorem GetInstances_result (env : Env) :
    (GetInstances env).result =
      match (env.DescribeInstances none).2 with
      | some e => .ok (none, some e)
      | none =>
        match deref (env.DescribeInstances none).1 with
        | .error p => .error p
        | .ok out =>
          match rangeLoop (fun acc (reservation : Reservation) =>
              rangeLoop (GetInstances.body env) (Slice.toList reservation.Instances) acc)
              (Slice.toList out.Reservations) none with
          | .error p => .error p
          | .ok (.ret r) => .ok r
          | .ok (.next ec2Info) => .ok (ec2Info, none) := by
  simp only [GetInstances, Client.DescribeInstances, Run.call, Run.lift, bind, Run.bind, pure,
    Run.pure]
  cases h : (env.DescribeInstances none).2 with
  | some e => simp
  | none =>
    simp
    cases deref (env.DescribeInstances none).1 with
    | error p => rfl
    | ok out =>
      simp
      split <;> simp_all
      split <;> simp_all

theorem GetVolumes_result (env : Env) :
    (GetVolumes env).result =
      match (env.DescribeVolumes (some {})).2 with
      | some e => .ok (none, some e)
      | none =>
        match deref (env.DescribeVolumes (some {})).1 with
        | .error p => .error p
        | .ok out =>
          match rangeLoop (GetVolumes.body env) (Slice.toList out.Volumes) none with
          | .error p => .error p
          | .ok (.ret r) => .ok r
          | .ok (.next volumes) => .ok (volumes, none) := by
  simp only [GetVolumes, Client.DescribeVolumes, Run.call, Run.lift, bind, Run.bind, pure,
    Run.pure]
  cases h : (env.DescribeVolumes (some {})).2 with
  | some e => simp
  | none =>
    simp
    cases deref (env.DescribeVolumes (some {})).1 with
    | error p => rfl
    | ok out =>
      simp
      split <;> simp_all
      split <;> simp_all

theorem GetSecGrps_result (env : Env) :
    (GetSecGrps env).result =
      match (env.DescribeSecurityGroups (some {})).2 with
      | some e => .ok (none, some e)
      | none =>
        match deref (env.DescribeSecurityGroups (some {})).1 with
        | .error p => .error p
        | .ok out =>
          match rangeLoop GetSecGrps.body (Slice.toList out.SecurityGroups) () with
          | .error p => .error p
          | .ok (.ret r) => .ok r
          | .ok (.next _) => .ok (out.SecurityGroups, none) := by
  simp only [GetSecGrps, Client.DescribeSecurityGroups, Run.call, Run.lift, bind, Run.bind, pure,
    Run.pure]
  cases h : (env.DescribeSecurityGroups (some {})).2 with
  | some e => simp
  | none =>
    simp
    cases deref (env.DescribeSecurityGroups (some {})).1 with
    | error p => rfl
    | ok out =>
      simp
      split <;> simp_all
      split <;> simp_all


theorem GetLocalTimeZone_ok (env : Env) (zone : Option Location)
    (htz : env.LoadLocation "" = (zone, none)) :
    GetLocalTimeZone env = (Location.String zone, none) := by
  simp [GetLocalTimeZone, htz]

theorem GetInstances_body_next (env : Env) (zone : Option Location) (loc : Location)
    (htz : env.LoadLocation "" = (zone, none))
    (hloc : (env.LoadLocation (Location.String zone)).1 = some loc)
    (acc : Slice EC2Resp) (i : Instance) (hi : i.complete) :
    ∃ r : EC2Resp, GetInstances.body env acc i = .ok (.next (Slice.append acc r)) ∧
      r.flattens i := by
  obtain ⟨id, ty, pl, st, dns, mon, lt⟩ := i
  obtain ⟨h1, h2, h3, h4, h5, h6⟩ := hi
  simp only at h1 h2 h3 h4 h5 h6
  obtain ⟨id, rfl⟩ := Option.isSome_iff_exists.mp h1
  obtain ⟨az, haz⟩ := Option.isSome_iff_exists.mp h2
  obtain ⟨st, rfl⟩ := Option.isSome_iff_exists.mp h3
  obtain ⟨dns, rfl⟩ := Option.isSome_iff_exists.mp h4
  obtain ⟨mon, rfl⟩ := Option.isSome_iff_exists.mp h5
  obtain ⟨lt, rfl⟩ := Option.isSome_iff_exists.mp h6
  cases pl with
  | none => simp at haz
  | some pl =>
    obtain ⟨paz⟩ := pl
    simp only [Option.bind] at haz
    subst haz
    refine ⟨⟨id, ty, az, st.Name, dns, mon.State,
      env.Format "Mon Jan _2 15:04:05 2006" { lt with loc := loc }⟩, ?_, ?_⟩
    · simp only [GetInstances.body, GetLocalTimeZone_ok env zone htz, hloc, deref, Time.In,
        bind, Except.bind]
    · simp [EC2Resp.flattens]

theorem GetInstances_inner_next (env : Env) (zone : Option Location) (loc : Location)
    (htz : env.LoadLocation "" = (zone, none))
    (hloc : (env.LoadLocation (Location.String zone)).1 = some loc) :
    ∀ (xs : List Instance) (acc : Slice EC2Resp), (∀ i ∈ xs, i.complete) →
      ∃ (acc1 : Slice EC2Resp) (rs : List EC2Resp),
        rangeLoop (GetInstances.body env) xs acc = .ok (.next acc1) ∧
        Slice.toList acc1 = Slice.toList acc ++ rs ∧
        List.Forall₂ EC2Resp.flattens rs xs := by
  intro xs
  induction xs with
  | nil => intro acc _; exact ⟨acc, [], rfl, by simp, List.Forall₂.nil⟩
  | cons x xs ih =>
    intro acc h
    obtain ⟨r, hb, hr⟩ := GetInstances_body_next env zone loc htz hloc acc x
      (h x (List.mem_cons_self _ _))
    obtain ⟨acc1, rs, hl, ht, hf⟩ := ih (Slice.append acc r)
      (fun i hi => h i (List.mem_cons_of_mem _ hi))
    refine ⟨acc1, r :: rs, ?_, ?_, List.Forall₂.cons hr hf⟩
    · simp only [rangeLoop, hb]; exact hl
    · rw [ht]; simp [Slice.append, Slice.toList]

theorem GetInstances_outer_next (env : Env) (zone : Option Location) (loc : Location)
    (htz : env.LoadLocation "" = (zone, none))
    (hloc : (env.LoadLocation (Location.String zone)).1 = some loc) :
    ∀ (rsv : List Reservation) (acc : Slice EC2Resp),
      (∀ r ∈ rsv, ∀ i ∈ Slice.toList r.Instances, i.complete) →
      ∃ (acc1 : Slice EC2Resp) (rs : List EC2Resp),
        rangeLoop (fun acc (reservation : Reservation) =>
          rangeLoop (GetInstances.body env) (Slice.toList reservation.Instances) acc)
          rsv acc = .ok (.next acc1) ∧
        Slice.toList acc1 = Slice.toList acc ++ rs ∧
        List.Forall₂ EC2Resp.flattens rs
          (rsv.flatMap (fun r => Slice.toList r.Instances)) := by
  intro rsv
  induction rsv with
  | nil => intro acc _; exact ⟨acc, [], rfl, by simp, by simp⟩
  | cons x xs ih =>
    intro acc h
    obtain ⟨acc0, rs0, hl0, ht0, hf0⟩ := GetInstances_inner_next env zone loc htz hloc
      (Slice.toList x.Instances) acc (h x (List.mem_cons_self _ _))
    obtain ⟨acc1, rs1, hl1, ht1, hf1⟩ := ih acc0
      (fun r hr => h r (List.mem_cons_of_mem _ hr))
    refine ⟨acc1, rs0 ++ rs1, ?_, ?_, ?_⟩
    · simp only [rangeLoop, hl0]; exact hl1
    · rw [ht1, ht0]; simp
    · simp only [List.flatMap_cons]
      exact List.rel_append hf0 hf1

/-! ## Theorems: provider functions -/

/-- C3: on a backend error `GetSnapshots`, `GetAMIs`, `GetVPCs` and
`GetSubnets` return the nil list, which is also what they return after a
successful call that found zero records. -/
theorem list_functions_hide_backend_error (e : Error) (empty : Bool) (vpcId : String) :
    (GetSnapshots (failingEnv e)).result = .ok none ∧
    (GetSnapshots (emptyEnv empty)).result = .ok none ∧
    (GetAMIs (failingEnv e)).result = .ok none ∧
    (GetAMIs (emptyEnv empty)).result = .ok none ∧
    (GetVPCs (failingEnv e)).result = .ok none ∧
    (GetVPCs (emptyEnv empty)).result = .ok none ∧
    (GetSubnets (failingEnv e) vpcId).result = .ok none ∧
    (GetSubnets (emptyEnv empty) vpcId).result = .ok none := by
  cases empty <;> exact ⟨rfl, rfl, rfl, rfl, rfl, rfl, rfl, rfl⟩

/-- C4: on a backend error each of `GetSingleVolume`, `GetSingleSnapshot`,
`GetSingleAMI`, `GetSingleVPC` and `GetSingleSubnet` panics on the nil output,
and on a successful response with an empty result list each panics on the
index `[0]`. -/
theorem single_fetch_panics (e : Error) (empty : Bool) (id : String) :
    (GetSingleVolume (failingEnv e) id).result = .error .nilDeref ∧
    (GetSingleSnapshot (failingEnv e) id).result = .error .nilDeref ∧
    (GetSingleAMI (failingEnv e) id).result = .error .nilDeref ∧
    (GetSingleVPC (failingEnv e) id).result = .error .nilDeref ∧
    (GetSingleSubnet (failingEnv e) id).result = .error .nilDeref ∧
    (GetSingleVolume (emptyEnv empty) id).result = .error .indexOutOfRange ∧
    (GetSingleSnapshot (emptyEnv empty) id).result = .error .indexOutOfRange ∧
    (GetSingleAMI (emptyEnv empty) id).result = .error .indexOutOfRange ∧
    (GetSingleVPC (emptyEnv empty) id).result = .error .indexOutOfRange ∧
    (GetSingleSubnet (emptyEnv empty) id).result = .error .indexOutOfRange := by
  cases empty <;> exact ⟨rfl, rfl, rfl, rfl, rfl, rfl, rfl, rfl, rfl, rfl⟩

/-- C6: whatever the backend answers and whatever the identifier, each of the
fourteen provider functions that reach the backend issues exactly one request,
and it is a Describe operation; in particular each trace is read-only. -/
theorem provider_requests_read_only (env : Env) (id : String) :
    readOnly (GetInstances env).trace ∧
    readOnly (GetSingleInstance env id).trace ∧
    readOnly (GetSecGrps env).trace ∧
    readOnly (GetSingleSecGrp env id).trace ∧
    readOnly (GetVolumes env).trace ∧
    readOnly (GetSingleVolume env id).trace ∧
    readOnly (GetSnapshots env).trace ∧
    readOnly (GetSingleSnapshot env id).trace ∧
    readOnly (GetAMIs env).trace ∧
    readOnly (GetSingleAMI env id).trace ∧
    readOnly (GetVPCs env).trace ∧
    readOnly (GetSingleVPC env id).trace ∧
    readOnly (GetSubnets env id).trace ∧
    readOnly (GetSingleSubnet env id).trace := by
  have h1 : (GetInstances env).trace = ["DescribeInstances"] := by
    simp only [GetInstances, Client.DescribeInstances, Run.call, Run.lift, bind, Run.bind,
      pure, Run.pure]
    repeat (any_goals (first | rfl | split))
  have h2 : (GetSingleInstance env id).trace = ["DescribeInstances"] := by
    simp only [GetSingleInstance, Client.DescribeInstances, Run.call, Run.lift, bind,
      Run.bind, pure, Run.pure]
    repeat (any_goals (first | rfl | split))
  have h3 : (GetSecGrps env).trace = ["DescribeSecurityGroups"] := by
    simp only [GetSecGrps, Client.DescribeSecurityGroups, Run.call, Run.lift, bind, Run.bind,
      pure, Run.pure]
    repeat (any_goals (first | rfl | split))
  have h4 : (GetSingleSecGrp env id).trace = ["DescribeSecurityGroups"] := by
    simp only [GetSingleSecGrp, Client.DescribeSecurityGroups, Run.call, Run.lift, bind,
      Run.bind, pure, Run.pure]
    repeat (any_goals (first | rfl | split))
  have h5 : (GetVolumes env).trace = ["DescribeVolumes"] := by
    simp only [GetVolumes, Client.DescribeVolumes, Run.call, Run.lift, bind, Run.bind,
      pure, Run.pure]
    repeat (any_goals (first | rfl | split))
  have h6 : (GetSingleVolume env id).trace = ["DescribeVolumes"] := by
    simp only [GetSingleVolume, Client.DescribeVolumes, Run.call, Run.lift, bind, Run.bind,
      pure, Run.pure]
    repeat (any_goals (first | rfl | split))
  have h7 : (GetSnapshots env).trace = ["DescribeSnapshots"] := by
    simp only [GetSnapshots, Client.DescribeSnapshots, Run.call, Run.lift, bind, Run.bind,
      pure, Run.pure]
    repeat (any_goals (first | rfl | split))
  have h8 : (GetSingleSnapshot env id).trace = ["DescribeSnapshots"] := by
    simp only [GetSingleSnapshot, Client.DescribeSnapshots, Run.call, Run.lift, bind,
      Run.bind, pure, Run.pure]
    repeat (any_goals (first | rfl | split))
  have h9 : (GetAMIs env).trace = ["DescribeImages"] := by
    simp only [GetAMIs, Client.DescribeImages, Run.call, Run.lift, bind, Run.bind,
      pure, Run.pure]
    repeat (any_goals (first | rfl | split))
  have h10 : (GetSingleAMI env id).trace = ["DescribeImages"] := by
    simp only [GetSingleAMI, Client.DescribeImages, Run.call, Run.lift, bind, Run.bind,
      pure, Run.pure]
    repeat (any_goals (first | rfl | split))
  have h11 : (GetVPCs env).trace = ["DescribeVpcs"] := by
    simp only [GetVPCs, Client.DescribeVpcs, Run.call, Run.lift, bind, Run.bind,
      pure, Run.pure]
    repeat (any_goals (first | rfl | split))
  have h12 : (GetSingleVPC env id).trace = ["DescribeVpcs"] := by
    simp only [GetSingleVPC, Client.DescribeVpcs, Run.call, Run.lift, bind, Run.bind,
      pure, Run.pure]
    repeat (any_goals (first | rfl | split))
  have h13 : (GetSubnets env id).trace = ["DescribeSubnets"] := by
    simp only [GetSubnets, Client.DescribeSubnets, Run.call, Run.lift, bind, Run.bind,
      pure, Run.pure]
    repeat (any_goals (first | rfl | split))
  have h14 : (GetSingleSubnet env id).trace = ["DescribeSubnets"] := by
    simp only [GetSingleSubnet, Client.DescribeSubnets, Run.call, Run.lift, bind, Run.bind,
      pure, Run.pure]
    repeat (any_goals (first | rfl | split))
  rw [h1, h2, h3, h4, h5, h6, h7, h8, h9, h10, h11, h12, h13, h14]
  unfold readOnly
  decide

/-- C7: with Go's `time.LoadLocation`, `GetLocalTimeZone` returns the name
"UTC" and no error on every host, and the location that the list functions
then load from that name is UTC; on a host whose local time zone is
Asia/Kolkata the returned name is not the host's zone. -/
theorem GetLocalTimeZone_returns_UTC (env : Env) (host : Host) :
    GetLocalTimeZone { env with LoadLocation := goLoadLocation host } = ("UTC", none) ∧
    (goLoadLocation host
      (GetLocalTimeZone { env with LoadLocation := goLoadLocation host }).1).1 = some UTC ∧
    (GetLocalTimeZone { env with LoadLocation := goLoadLocation kolkataHost }).1
      ≠ kolkataHost.zone := by
  have h : ∀ h0 : Host,
      GetLocalTimeZone { env with LoadLocation := goLoadLocation h0 } = ("UTC", none) := by
    intro h0
    simp [GetLocalTimeZone, goLoadLocation, Location.String, UTC]
  refine ⟨h host, ?_, ?_⟩
  · rw [h host]; simp [goLoadLocation]
  · rw [h kolkataHost]; decide

/-- C8: for `GetInstances`, `GetVolumes` and `GetSecGrps`, a backend call that
returns the error `e` makes the function return the nil list with exactly
`e`, and whenever the function returns with a non-nil error its list is nil.
The time-zone failure part-way through the records is covered iteration by
iteration: whatever list the earlier iterations have accumulated, an iteration
of `GetInstances` or `GetVolumes` whose time-zone lookup fails with `err`
returns the nil list with exactly `err`, every return from inside an
iteration carries the nil list, and so does every return of the loops started
from any accumulated list; the loop of `GetSecGrps` never returns from the
function. -/
theorem list_functions_error_has_nil_list (env : Env) :
    (∀ e, (env.DescribeInstances none).2 = some e →
      (GetInstances env).result = .ok (none, some e)) ∧
    (∀ l e, (GetInstances env).result = .ok (l, some e) → l = none) ∧
    (∀ e, (env.DescribeVolumes (some {})).2 = some e →
      (GetVolumes env).result = .ok (none, some e)) ∧
    (∀ l e, (GetVolumes env).result = .ok (l, some e) → l = none) ∧
    (∀ e, (env.DescribeSecurityGroups (some {})).2 = some e →
      (GetSecGrps env).result = .ok (none, some e)) ∧
    (∀ l e, (GetSecGrps env).result = .ok (l, some e) → l = none) ∧
    (∀ (acc : Slice EC2Resp) (i : Instance) (z : String) (err : Error),
      GetLocalTimeZone env = (z, some err) →
      GetInstances.body env acc i = .ok (.ret (none, some err))) ∧
    (∀ (acc : Slice EC2Resp) (i : Instance) (r : Slice EC2Resp × Option Error),
      GetInstances.body env acc i = .ok (.ret r) → r.1 = none) ∧
    (∀ (rsv : List Reservation) (acc : Slice EC2Resp) (r : Slice EC2Resp × Option Error),
      rangeLoop (fun acc (reservation : Reservation) =>
        rangeLoop (GetInstances.body env) (Slice.toList reservation.Instances) acc)
        rsv acc = .ok (.ret r) → r.1 = none) ∧
    (∀ (acc : Slice EBSResp) (v : Volume) (z : String) (err : Error),
      GetLocalTimeZone env = (z, some err) →
      GetVolumes.body env acc v = .ok (.ret (none, some err))) ∧
    (∀ (acc : Slice EBSResp) (v : Volume) (r : Slice EBSResp × Option Error),
      GetVolumes.body env acc v = .ok (.ret r) → r.1 = none) ∧
    (∀ (vs : List Volume) (acc : Slice EBSResp) (r : Slice EBSResp × Option Error),
      rangeLoop (GetVolumes.body env) vs acc = .ok (.ret r) → r.1 = none) ∧
    (∀ (sgs : List SecurityGroup) (r : Slice SecurityGroup × Option Error),
      rangeLoop GetSecGrps.body sgs () ≠ .ok (.ret r)) := by
  have hinst : ∀ (rsv : List Reservation) (acc : Slice EC2Resp)
      (r : Slice EC2Resp × Option Error),
      rangeLoop (fun acc (reservation : Reservation) =>
        rangeLoop (GetInstances.body env) (Slice.toList reservation.Instances) acc)
        rsv acc = .ok (.ret r) → r.1 = none := by
    intro rsv acc r hr
    exact rangeLoop_ret_inv (fun r => r.1 = none) _ (fun s x r hb =>
      rangeLoop_ret_inv (fun r => r.1 = none) _ (GetInstances_body_ret env) _ _ _ hb)
      _ _ _ hr
  have hvol : ∀ (vs : List Volume) (acc : Slice EBSResp) (r : Slice EBSResp × Option Error),
      rangeLoop (GetVolumes.body env) vs acc = .ok (.ret r) → r.1 = none := by
    intro vs acc r hr
    exact rangeLoop_ret_inv (fun r => r.1 = none) _ (GetVolumes_body_ret env) _ _ _ hr
  refine ⟨?_, ?_, ?_, ?_, ?_, ?_, GetInstances_body_tz_error env, GetInstances_body_ret env,
    hinst, GetVolumes_body_tz_error env, GetVolumes_body_ret env, hvol, ?_⟩
  · intro e h; rw [GetInstances_result, h]
  · intro l e h
    rw [GetInstances_result] at h
    split at h
    · cases h; rfl
    · split at h
      · cases h
      · split at h
        · cases h
        · next r hr =>
          cases h
          exact hinst _ _ _ hr
        · cases h
  · intro e h; rw [GetVolumes_result, h]
  · intro l e h
    rw [GetVolumes_result] at h
    split at h
    · cases h; rfl
    · split at h
      · cases h
      · split at h
        · cases h
        · next r hr =>
          cases h
          exact hvol _ _ _ hr
        · cases h
  · intro e h; rw [GetSecGrps_result, h]
  · intro l e h
    rw [GetSecGrps_result] at h
    split at h
    · cases h; rfl
    · split at h
      · cases h
      · split at h
        · cases h
        · next r hr =>
          cases h
          exact rangeLoop_ret_inv (fun r => r.1 = none) _ GetSecGrps_body_ret _ _ _ hr
        · cases h
  · intro sgs r h
    exact rangeLoop_ret_inv (fun _ => False) _ GetSecGrps_body_no_ret _ _ _ h

/-- Witness for `list_functions_error_has_nil_list`: a backend that fails with
the error "timeout", and an iteration of `GetInstances` whose time-zone lookup
fails after an earlier iteration has accumulated one record. -/
theorem list_functions_error_has_nil_list_witness :
    (failingEnv "timeout").DescribeInstances none = (none, some "timeout") ∧
    (GetInstances (failingEnv "timeout")).result = .ok (none, some "timeout") ∧
    (GetVolumes (failingEnv "timeout")).result = .ok (none, some "timeout") ∧
    (GetSecGrps (failingEnv "timeout")).result = .ok (none, some "timeout") ∧
    GetLocalTimeZone noZoneEnv = ("", some "unknown time zone") ∧
    GetInstances.body noZoneEnv (some [earlierRecord]) instanceWithLaunchTime
      = .ok (.ret (none, some "unknown time zone")) ∧
    (GetInstances noZoneEnv).result = .ok (none, some "unknown time zone") :=
  ⟨rfl,
   (list_functions_error_has_nil_list (failingEnv "timeout")).1 "timeout" rfl,
   (list_functions_error_has_nil_list (failingEnv "timeout")).2.2.1 "timeout" rfl,
   (list_functions_error_has_nil_list (failingEnv "timeout")).2.2.2.2.1 "timeout" rfl,
   rfl,
   (list_functions_error_has_nil_list noZoneEnv).2.2.2.2.2.2.1 (some [earlierRecord])
     instanceWithLaunchTime "" "unknown time zone" rfl,
   rfl⟩

/-- C10 (as stated, refuted): the backend succeeds with one instance that
carries an instance id, a placement with an availability zone, a state, a
public DNS name and a monitoring entry, the time-zone lookup succeeds, and
`GetInstances` panics on the instance's nil launch time. -/
theorem GetInstances_panics_without_launch_time :
    noLaunchTimeEnv.DescribeInstances none
      = (some ⟨some [⟨some [instanceWithoutLaunchTime]⟩]⟩, none) ∧
    instanceWithoutLaunchTime.InstanceId.isSome = true ∧
    (instanceWithoutLaunchTime.Placement.bind (fun p => p.AvailabilityZone)).isSome = true ∧
    instanceWithoutLaunchTime.State.isSome = true ∧
    instanceWithoutLaunchTime.PublicDnsName.isSome = true ∧
    instanceWithoutLaunchTime.Monitoring.isSome = true ∧
    GetLocalTimeZone noLaunchTimeEnv = ("UTC", none) ∧
    noLaunchTimeEnv.LoadLocation "UTC" = (some UTC, none) ∧
    (GetInstances noLaunchTimeEnv).result = .error .nilDeref := by
  refine ⟨rfl, rfl, rfl, rfl, rfl, rfl, rfl, rfl, rfl⟩

/-- C10 (amended): when the backend call succeeds, both time-zone lookups
succeed and every instance carries an instance id, a placement with an
availability zone, a state, a public DNS name, a monitoring entry and a launch
time, `GetInstances` returns a nil error and one record per instance, in
reservation order and then instance order, each record agreeing with its
instance on the six copied fields. -/
theorem GetInstances_flattens_response (env : Env) (out : DescribeInstancesOutput)
    (zone : Option Location) (loc : Location)
    (hcall : env.DescribeInstances none = (some out, none))
    (htz : env.LoadLocation "" = (zone, none))
    (hloc : (env.LoadLocation (Location.String zone)).1 = some loc)
    (hfields : ∀ r ∈ Slice.toList out.Reservations, ∀ i ∈ Slice.toList r.Instances,
      i.complete) :
    ∃ l : Slice EC2Resp, (GetInstances env).result = .ok (l, none) ∧
      (Slice.toList l).length
        = ((Slice.toList out.Reservations).map
            (fun r => (Slice.toList r.Instances).length)).sum ∧
      List.Forall₂ EC2Resp.flattens (Slice.toList l) out.instances := by
  obtain ⟨acc1, rs, hl, ht, hf⟩ := GetInstances_outer_next env zone loc htz hloc
    (Slice.toList out.Reservations) none hfields
  have hnil : Slice.toList (none : Slice EC2Resp) = [] := rfl
  rw [hnil, List.nil_append] at ht
  refine ⟨acc1, ?_, ?_, ?_⟩
  · rw [GetInstances_result]; simp only [hcall, deref, hl]
  · rw [ht, hf.length_eq, List.length_flatMap]; rfl
  · rw [ht]; exact hf

/-- Witness for `GetInstances_flattens_response`: a response with one
reservation holding one complete instance. -/
theorem GetInstances_flattens_response_witness :
    ∃ l : Slice EC2Resp, (GetInstances oneInstanceEnv).result = .ok (l, none) ∧
      (Slice.toList l).length
        = ((Slice.toList oneInstanceOutput.Reservations).map
            (fun r => (Slice.toList r.Instances).length)).sum ∧
      List.Forall₂ EC2Resp.flattens (Slice.toList l) oneInstanceOutput.instances :=
  GetInstances_flattens_response oneInstanceEnv oneInstanceOutput (some UTC) UTC rfl rfl rfl
    (by
      intro r hr i hi
      simp only [oneInstanceOutput, Slice.toList, List.mem_singleton] at hr
      subst hr
      simp only [Slice.toList, List.mem_singleton] at hi
      subst hi
      simp [Instance.complete, instanceWithLaunchTime, instanceWithoutLaunchTime])

end CloudLens
